import Mathlib

/-!
Verification of the packit-service policy gate and testing-farm submitter.

This file shallowly embeds the two source modules

  * `packit_service/worker/testing_farm.py` (class `TestingFarmJobHelper`), and
  * `packit_service/worker/checker/distgit.py` (the policy-gate checkers)

as pure Lean functions.  Collaborators (the HTTP transport, the git forge,
the database) are modelled as explicit inputs carried by an environment
record; observable side effects (HTTP calls, commit-status reports, created
TestRun rows, sentry events, issue reports) are returned as explicit traces.
Python exceptions are modelled with `Except`.
-/

/-- JSON-like values, as produced by `response.json()` in Python.  `null`
doubles as Python `None` (note that `json.loads "null"` is also `None`). -/
inductive JVal where
  | null : JVal
  | bool : Bool → JVal
  | num : Int → JVal
  | str : String → JVal
  | arr : List JVal → JVal
  | obj : List (String × JVal) → JVal

/-- Python truthiness of a JSON value (`None`, `False`, `0`, `""`, `[]` and
an empty dict are falsy, everything else truthy). -/
def pyTruthy : JVal → Bool
  | .null => false
  | .bool b => b
  | .num n => !(n == 0)
  | .str s => !(s == "")
  | .arr xs => !xs.isEmpty
  | .obj kvs => !kvs.isEmpty

/-- Python `d[k]` on a JSON value: a lookup that succeeds only on a dict
holding the key (Python raises `KeyError`/`TypeError` otherwise, which the
callers below turn into an `Except` error). -/
def jGet : JVal → String → Option JVal
  | .obj kvs, k => (kvs.find? (fun p => p.1 == k)).map Prod.snd
  | _, _ => none

/-- Whether `needle` occurs as a contiguous substring of `hay`. -/
def strContainsSub (hay needle : String) : Bool :=
  decide (needle.data <:+: hay.data)

/-- Python exceptions that can escape the embedded code. -/
inductive PyErr where
  | connectionFailure : String → PyErr
  | keyError : String → PyErr
  | typeError : String → PyErr
  | valueError : String → PyErr

/-- Python `k in j` for a string `k`: key membership on a dict, element
equality on a list (a non-string element never equals a string), substring
test on a string; on `None`/booleans/numbers Python raises `TypeError`. -/
def pyContainsE : JVal → String → Except PyErr Bool
  | .obj kvs, k => .ok (kvs.any (fun p => p.1 == k))
  | .arr xs, k => .ok (xs.any (fun v => match v with | .str s => s == k | _ => false))
  | .str s, k => .ok (strContainsSub s k)
  | _, _ => .error (.typeError "argument of type is not iterable")

mutual

/-- Python `repr()` of a JSON-like value. -/
def pyRepr : JVal → String
  | .null => "None"
  | .bool b => if b then "True" else "False"
  | .num n => toString n
  | .str s => "\x27" ++ s ++ "\x27"
  | .arr xs => "[" ++ pyReprElems xs ++ "]"
  | .obj kvs => "\x7b" ++ pyReprFields kvs ++ "\x7d"

/-- Comma-separated `repr`s of list elements. -/
def pyReprElems : List JVal → String
  | [] => ""
  | [v] => pyRepr v
  | v :: vs => pyRepr v ++ ", " ++ pyReprElems vs

/-- Comma-separated `repr`s of dict entries. -/
def pyReprFields : List (String × JVal) → String
  | [] => ""
  | [(k, v)] => "\x27" ++ k ++ "\x27: " ++ pyRepr v
  | (k, v) :: kvs => "\x27" ++ k ++ "\x27: " ++ pyRepr v ++ ", " ++ pyReprFields kvs

end

/-- Python `str()` of a JSON-like value, as used by f-string interpolation
(a top-level string is taken verbatim; containers fall back to `repr`). -/
def pyStr : JVal → String
  | .str s => s
  | .null => "None"
  | .bool b => if b then "True" else "False"
  | .num n => toString n
  | v => pyRepr v

/-- Truthiness of an optional Python string (`None` and `""` are falsy). -/
def optTruthy : Option String → Bool
  | none => false
  | some s => !(s == "")

/-- F-string interpolation of an optional string (`None` prints as `None`). -/
def pyOptStr : Option String → String
  | none => "None"
  | some s => s

/-- F-string interpolation of an optional integer (`None` prints as `None`). -/
def pyOptIntStr : Option Int → String
  | none => "None"
  | some n => toString n

/-- Python `str.title()` restricted to what the sources exercise: a letter
is uppercased when the previous character is not a letter and lowercased
otherwise; non-letters pass through (`"fedora-33"` becomes `"Fedora-33"`). -/
def pyTitleAux : Bool → List Char → List Char
  | _, [] => []
  | prevCased, c :: cs =>
    if c.isAlpha then
      (if prevCased then c.toLower else c.toUpper) :: pyTitleAux true cs
    else
      c :: pyTitleAux false cs

/-- Python `str.title()` (see `pyTitleAux`). -/
def pyTitle (s : String) : String := ⟨pyTitleAux false s.data⟩

/-- Whether `s` ends with `suff` (Python `str.endswith`), computed on the
character lists. -/
def strEndsWith (s suff : String) : Bool :=
  s.data.drop (s.data.length - suff.data.length) == suff.data

/-- Accumulate decimal digits into a number; `none` on a non-digit. -/
def pyIntAux : List Char → Nat → Option Nat
  | [], acc => some acc
  | c :: cs, acc =>
    if c.isDigit then pyIntAux cs (acc * 10 + (c.toNat - 48)) else none

/-- Python `int(s)` on an optionally minus-signed decimal literal (the
only shape the sources feed it: a stored Copr build id); `none` models the
raised `ValueError`. -/
def pyInt (s : String) : Option Int :=
  match s.data with
  | [] => none
  | c :: cs =>
    if c == '-' then
      match cs with
      | [] => none
      | _ => (pyIntAux cs 0).map (fun n => -(n : Int))
    else (pyIntAux s.data 0).map (fun n => (n : Int))

/-- Split a character list on dashes, accumulating the current (reversed)
segment. -/
def splitOnDashAux : List Char → List Char → List (List Char)
  | [], cur => [cur.reverse]
  | c :: cs, cur =>
    if c == '-' then cur.reverse :: splitOnDashAux cs []
    else splitOnDashAux cs (c :: cur)

/-- Rejoin dash-separated segments. -/
def joinDash : List (List Char) → List Char
  | [] => []
  | [x] => x
  | x :: xs => x ++ '-' :: joinDash xs

/-- Python `s.rsplit("-", 1)` unpacked into two parts: split at the last
dash; `none` when there is no dash (Python would raise `ValueError` when
unpacking the single-element list). -/
def rsplitDash (s : String) : Option (String × String) :=
  match (splitOnDashAux s.data []).reverse with
  | last :: r :: rest => some (⟨joinDash ((r :: rest).reverse)⟩, ⟨last⟩)
  | _ => none

/-- Python `d[k] = v` on an insertion-ordered dict: an existing key is
updated in place, a new key is appended. -/
def dictSet (d : List (String × JVal)) (k : String) (v : JVal) :
    List (String × JVal) :=
  if d.any (fun p => p.1 == k) then
    d.map (fun p => if p.1 == k then (k, v) else p)
  else
    d ++ [(k, v)]

/-- Python `d.update(other)`: the first component is the mutated dict, the
second is the expression value of the call — `dict.update` returns `None`,
modelled as `none`.  The source of `run_testing_farm_on_all` uses the
expression value and thereby discards the merged dict. -/
def dict_update (d other : List (String × JVal)) :
    (List (String × JVal)) × Option (List (String × JVal)) :=
  (other.foldl (fun acc p => dictSet acc p.1 p.2) d, none)

/-- Comma-separated quoted keys of a dict. -/
def dictKeysJoin : List (String × JVal) → String
  | [] => ""
  | [(k, _)] => "\x27" ++ k ++ "\x27"
  | (k, _) :: rest => "\x27" ++ k ++ "\x27, " ++ dictKeysJoin rest

/-- Python `str(d.keys())`, e.g. `dict_keys(['a', 'b'])`. -/
def dictKeysRepr (d : List (String × JVal)) : String :=
  "dict_keys([" ++ dictKeysJoin d ++ "])"

/-- Regular expressions, as the parsed form of the pattern strings held in
the job configuration (`upstream_tag_include` / `upstream_tag_exclude`). -/
inductive Regex where
  | emp : Regex
  | eps : Regex
  | chr : Char → Regex
  | dot : Regex
  | alt : Regex → Regex → Regex
  | cat : Regex → Regex → Regex
  | star : Regex → Regex

/-- Whether a regex accepts the empty string. -/
def Regex.nullable : Regex → Bool
  | .emp => false
  | .eps => true
  | .chr _ => false
  | .dot => false
  | .alt a b => a.nullable || b.nullable
  | .cat a b => a.nullable && b.nullable
  | .star _ => true

/-- Brzozowski derivative of a regex with respect to one character. -/
def Regex.deriv : Regex → Char → Regex
  | .emp, _ => .emp
  | .eps, _ => .emp
  | .chr c, x => if x == c then .eps else .emp
  | .dot, _ => .eps
  | .alt a b, x => .alt (a.deriv x) (b.deriv x)
  | .cat a b, x =>
    if a.nullable then .alt (.cat (a.deriv x) b) (b.deriv x)
    else .cat (a.deriv x) b
  | .star a, x => .cat (a.deriv x) (.star a)

/-- Python `re.match(p, s)` truthiness: whether some prefix of `s`,
anchored at position 0, is in the language of `p` (a partial match from
the start of the string, not a full-string match). -/
def matchFromStart : Regex → List Char → Bool
  | r, [] => r.nullable
  | r, c :: cs => r.nullable || matchFromStart (r.deriv c) cs

/-- States of the `CommitStatus` enum from `ogr.abstract` used by the
submitter's status reports. -/
inductive CommitStatus where
  | pending : CommitStatus
  | success : CommitStatus
  | failure : CommitStatus
  | error : CommitStatus

/-- States of the `TestingFarmResult` enum from `packit_service.models`. -/
inductive TestingFarmResult where
  | new : TestingFarmResult
  | queued : TestingFarmResult
  | running : TestingFarmResult
  | passed : TestingFarmResult
  | failed : TestingFarmResult
  | error : TestingFarmResult

/-- One call to `report_status_to_test_for_chroot`.  The description is a
`JVal` because the non-success branch of `run_testing_farm` passes the raw
value found under the `message` key of the response body; the string
literals of the other call sites are wrapped with `JVal.str`. -/
structure StatusReport where
  state : CommitStatus
  description : JVal
  url : Option String
  chroot : String

/-- One call to `TFTTestRunModel.create`: the row persisted for a
successful submission. -/
structure TFTTestRunCreate where
  pipeline_id : JVal
  commit_sha : String
  status : TestingFarmResult
  target : String
  web_url : Option String
  trigger_model : Nat

/-- One HTTP request issued through `send_testing_farm_request` /
`get_raw_request` (`params` is always `None` in the sources and omitted). -/
structure HttpCall where
  method : String
  url : String
  data : Option JVal

/-- The `RequestResponse` built by `get_raw_request` from the transport
response: status code, `ok` flag, decoded JSON body (`JVal.null` when the
body failed to decode, i.e. Python `None`) and the HTTP reason phrase. -/
structure RequestResponse where
  status_code : Nat
  ok : Bool
  json : JVal
  reason : String

/-- The `TaskResults` dict returned by the submitter entry points:
`success` plus a `details` dict.  `details` is an `Option` because the
aggregate path of `run_testing_farm_on_all` stores the `None` returned by
`dict.update` there. -/
structure TaskResults where
  success : Bool
  details : Option (List (String × JVal))

/-- A row of `CoprBuildModel` as consumed by `run_testing_farm_on_all`
(only `build_id` is read; the DB column is a string, converted with
`int(...)`). -/
structure CoprBuild where
  build_id : String

/-- The observable side effects of a submitter run, per category in
chronological order. -/
structure Effects where
  calls : List HttpCall
  reports : List StatusReport
  creates : List TFTTestRunCreate
  sentry : List String

/-- The empty effect trace. -/
def Effects.nil : Effects := ⟨[], [], [], []⟩

/-- Concatenation of effect traces. -/
def Effects.append (a b : Effects) : Effects :=
  ⟨a.calls ++ b.calls, a.reports ++ b.reports,
   a.creates ++ b.creates, a.sentry ++ b.sentry⟩

namespace TestingFarmJobHelper

/-- The state a `TestingFarmJobHelper` instance closes over, with its
collaborators made explicit: the job/package configuration, the event
metadata, the most-recent-first Copr-build rows the database would return
for the job's owner/project, and the HTTP transport.  `http` maps a
request to `some` response or to `none` for a connection-level failure
(`requests.exceptions.ConnectionError`). -/
structure TFEnv where
  tests_targets : List String
  build_targets : List String
  job_owner : String
  job_project : String
  commit_sha : String
  project_url : String
  api_url : String
  testing_farm_secret : String
  testing_farm_api_url : String
  db_trigger : Nat
  copr_builds : List CoprBuild
  http : HttpCall → Option RequestResponse

/-- The constructor's normalization of `service_config.testing_farm_api_url`:
a trailing slash is appended when missing. -/
def tftApiUrl (e : TFEnv) : String :=
  if strEndsWith e.testing_farm_api_url "/" then e.testing_farm_api_url
  else e.testing_farm_api_url ++ "/"

/-- The GET request to the compose catalog issued by `get_compose_arch`. -/
def composesCall (e : TFEnv) : HttpCall :=
  ⟨"GET", tftApiUrl e ++ "composes", none⟩

/-- The list comprehension `[c["name"] for c in response.json()["composes"]]`:
`none` models the `TypeError`/`KeyError` Python raises when the body does
not have the expected shape. -/
def extractComposes (j : JVal) : Option (List JVal) :=
  match jGet j "composes" with
  | some (JVal.arr xs) => xs.mapM (fun c => jGet c "name")
  | _ => none

/-- The raised `Exception` of `send_testing_farm_request` on a
connection-level failure. -/
def connectionError (url : String) : PyErr :=
  .connectionFailure ("Cannot connect to url: \x60" ++ url ++ "\x60.")

/-- `get_compose_arch`: split the chroot at its last dash, title-case the
base to get the compose name, and fetch the live compose catalog; a
missing compose in the catalog is only logged, never an error, but a
catalog body of unexpected shape raises.  Returns the issued calls and
the `(compose, arch)` pair (or the propagated exception). -/
def get_compose_arch (e : TFEnv) (chroot : String) :
    List HttpCall × Except PyErr (String × String) :=
  match rsplitDash chroot with
  | none => ([], .error (.valueError "not enough values to unpack"))
  | some (base, arch) =>
    let compose := pyTitle base
    let call := composesCall e
    match e.http call with
    | none => ([call], .error (connectionError call.url))
    | some response =>
      if response.status_code == 200 then
        match extractComposes response.json with
        | none => ([call], .error (.typeError "composes body has unexpected shape"))
        | some _ => ([call], .ok (compose, arch))
      else
        ([call], .ok (compose, arch))

/-- The request body built by `_payload` once compose and arch are known. -/
def payloadDict (e : TFEnv) (build_id : Int) (chroot compose arch : String) :
    JVal :=
  JVal.obj
    [("api_key", .str e.testing_farm_secret),
     ("test", .obj
        [("fmf", .obj
           [("url", .str e.project_url),
            ("ref", .str e.commit_sha)])]),
     ("environments", .arr
        [.obj
           [("arch", .str arch),
            ("os", .obj [("compose", .str compose)]),
            ("artifacts", .arr
               [.obj
                  [("id", .str (toString build_id ++ ":" ++ chroot)),
                   ("type", .str "fedora-copr-build")]])]]),
     ("notification", .obj
        [("webhook", .obj
           [("url", .str (e.api_url ++ "/testing-farm/results"))])])]

/-- `_payload`: resolve compose/arch through `get_compose_arch` (which
performs the catalog GET) and assemble the request body. -/
def _payload (e : TFEnv) (build_id : Int) (chroot : String) :
    List HttpCall × Except PyErr JVal :=
  match get_compose_arch e chroot with
  | (cs, .error er) => (cs, .error er)
  | (cs, .ok (compose, arch)) =>
    (cs, .ok (payloadDict e build_id chroot compose arch))

/-- The POST request to the `requests` endpoint for a given build/chroot,
with the compose/arch the code derives for that chroot (the fallback pair
is never used under the hypotheses of the theorems below, which require
the chroot to contain a dash). -/
def postCall (e : TFEnv) (build_id : Int) (chroot : String) : HttpCall :=
  let ca := match rsplitDash chroot with
    | some (base, arch) => (pyTitle base, arch)
    | none => ("", "")
  ⟨"POST", tftApiUrl e ++ "requests", some (payloadDict e build_id chroot ca.1 ca.2)⟩

/-- The status report of `report_missing_build_chroot`. -/
def missingBuildReport (chroot : String) : StatusReport :=
  ⟨.error, .str ("No build defined for the target \x27" ++ chroot ++ "\x27."),
   none, chroot⟩

/-- The pending report issued before the submission request. -/
def submittingReport (chroot : String) : StatusReport :=
  ⟨.pending, .str "Build succeeded. Submitting the tests ...", none, chroot⟩

/-- `run_testing_farm`: the single-target submission.  Returns the effect
trace together with the `TaskResults` (or the propagated exception).
Mirrors the source: the undeclared-test-target guard (sentry + failure, no
calls), the missing-build guard (error report + failure, no calls), the
pending pre-report, payload construction (catalog GET), the POST, and the
classification of the response.  `ogr`'s `RequestResponse` defines neither
a boolean conversion nor a length, so Python's default object truthiness
makes the `if not req:` branch of the source unreachable for a returned
response; a `ConnectionError` instead propagates as a raised exception. -/
def run_testing_farm (e : TFEnv) (build_id : Int) (chroot : String) :
    Effects × Except PyErr TaskResults :=
  if chroot ∈ e.tests_targets then
    if chroot ∈ e.build_targets then
      let rep1 := submittingReport chroot
      match _payload e build_id chroot with
      | (cs, .error er) => (⟨cs, [rep1], [], []⟩, .error er)
      | (cs, .ok payload) =>
        let call : HttpCall := ⟨"POST", tftApiUrl e ++ "requests", some payload⟩
        match e.http call with
        | none =>
          (⟨cs ++ [call], [rep1], [], []⟩, .error (connectionError call.url))
        | some req =>
          if req.status_code == 200 then
            match jGet req.json "id" with
            | none => (⟨cs ++ [call], [rep1], [], []⟩, .error (.keyError "id"))
            | some pipeline_id =>
              let created : TFTTestRunCreate :=
                ⟨pipeline_id, e.commit_sha, .new, chroot, none, e.db_trigger⟩
              let rep2 : StatusReport :=
                ⟨.pending, .str "Tests have been submitted ...",
                 some (tftApiUrl e ++ "requests/" ++ pyStr pipeline_id), chroot⟩
              (⟨cs ++ [call], [rep1, rep2], [created], []⟩,
               .ok ⟨true, some []⟩)
          else
            if pyTruthy req.json then
              match pyContainsE req.json "message" with
              | .error er => (⟨cs ++ [call], [rep1], [], []⟩, .error er)
              | .ok true =>
                match jGet req.json "message" with
                | some msg =>
                  (⟨cs ++ [call], [rep1, ⟨.failure, msg, none, chroot⟩], [], []⟩,
                   .ok ⟨false, some [("msg", msg)]⟩)
                | none =>
                  (⟨cs ++ [call], [rep1], [], []⟩,
                   .error (.typeError "indices must be integers"))
              | .ok false =>
                let msg := JVal.str ("Failed to submit tests: " ++ req.reason)
                (⟨cs ++ [call], [rep1, ⟨.failure, msg, none, chroot⟩], [], []⟩,
                 .ok ⟨false, some [("msg", msg)]⟩)
            else
              let msg := JVal.str ("Failed to submit tests: " ++ req.reason)
              (⟨cs ++ [call], [rep1, ⟨.failure, msg, none, chroot⟩], [], []⟩,
               .ok ⟨false, some [("msg", msg)]⟩)
    else
      let msg := "Target \x27" ++ chroot ++ "\x27 not defined for build. " ++
        "Cannot run tests without build."
      (⟨[], [missingBuildReport chroot], [], []⟩,
       .ok ⟨false, some [("msg", .str msg)]⟩)
  else
    let msg := "Target \x27" ++ chroot ++ "\x27 not defined for tests but triggered."
    (⟨[], [], [], [msg]⟩, .ok ⟨false, some [("msg", .str msg)]⟩)

/-- The sequential fan-out loop of `run_testing_farm_on_all`: submit each
target, recording failures in the insertion-ordered `failed` dict (value
`result.get("details")`, a dict or `None` encoded as `JVal`); an exception
aborts the loop. -/
def runLoop (e : TFEnv) (build_id : Int) :
    List String → Effects → List (String × JVal) →
    Effects × Except PyErr (List (String × JVal))
  | [], eff, failed => (eff, .ok failed)
  | chroot :: rest, eff, failed =>
    match run_testing_farm e build_id chroot with
    | (eff2, .error er) => (eff.append eff2, .error er)
    | (eff2, .ok result) =>
      let failed2 :=
        if result.success then failed
        else
          dictSet failed chroot
            (match result.details with
             | some d => JVal.obj d
             | none => JVal.null)
      runLoop e build_id rest (eff.append eff2) failed2

/-- `run_testing_farm_on_all`: fail at once when the database has no Copr
builds for the owner/project; otherwise take the most recent build id and
submit every configured test target sequentially.  The failure aggregate
of the source is `{"msg": ...}.update(failed)` — the expression value of
`dict.update`, i.e. `None` — so the returned `details` is `none` whenever
at least one target failed. -/
def run_testing_farm_on_all (e : TFEnv) : Effects × Except PyErr TaskResults :=
  match e.copr_builds with
  | [] =>
    (Effects.nil,
     .ok ⟨false,
          some [("msg", .str ("No copr builds for " ++ e.job_owner ++ "/" ++
            e.job_project))]⟩)
  | b :: _ =>
    match pyInt b.build_id with
    | none => (Effects.nil, .error (.valueError "invalid literal for int"))
    | some latest_copr_build_id =>
      match runLoop e latest_copr_build_id e.tests_targets Effects.nil [] with
      | (eff, .error er) => (eff, .error er)
      | (eff, .ok failed) =>
        if failed.isEmpty then (eff, .ok ⟨true, some []⟩)
        else
          (eff,
           .ok ⟨false,
                (dict_update
                  [("msg", .str ("Failed testing farm targets: \x27" ++
                     dictKeysRepr failed ++ "\x27."))] failed).2⟩)

end TestingFarmJobHelper

/-- One call to `report_in_issue_repository` (the user-facing issue
report): if an open issue with the same title exists the
`comment_to_existing` text is appended, otherwise a new issue with
`title`/`message` is opened. -/
structure IssueReport where
  issue_repository : String
  title : String
  message : String
  comment_to_existing : String

/-- Modelled from the spec: the `MSG_GET_IN_TOUCH` constant lives in
`packit_service.constants`, outside the given sources.  Its exact text is
irrelevant to every claim; only the fact that it is appended to the
message of the comment-retrigger rejection report matters. -/
def MSG_GET_IN_TOUCH : String := "\n\nPlease, get in touch if you need some help."

/-- A Pagure pull request as seen through the forge abstraction: its id,
status and author. -/
structure PullRequest where
  id : Int
  status : String
  author : String

namespace PermissionOnDistgit

/-- The state a `PermissionOnDistgit` checker closes over, collaborators
made explicit.  `configured_branches` is the alias-expanded branch
allowlist `get_branches(*dist_git_branches, default="main",
with_aliases=True)` computed by the external `packit` library;
`pull_request` is the PR resolved by `GetPagurePullRequestMixin` (`none`
when it cannot be resolved); `pr_files_diff` is the result of
`project.get_pr_files_diff(pr_id, retries=5, wait_seconds=5)` — the keys
of the returned diff dict, `none` when the call yields no diff;
`is_packager` is the forge's packager-capability query. -/
structure DistgitEnv where
  event_type : String
  git_ref : String
  committer : String
  actor : String
  pr_id : Option Int
  project_url : String
  configured_branches : List String
  allowed_pr_authors : List String
  allowed_committers : List String
  pull_request : Option PullRequest
  pr_files_diff : Option (List String)
  is_packager : String → Bool
  issue_repository : String

/-- Modelled from the spec: `get_pr_author` comes from
`GetPagurePullRequestMixin`, which is not under the given sources; the
spec says the allowed-authors check concerns "the PR author". -/
def get_pr_author (p : PullRequest) : String := p.author

/-- `contains_specfile_change`: with no resolvable PR the check passes
(direct pushes are filtered elsewhere); otherwise the PR's changed-file
diff is fetched (`or {}` turns a `None` result into an empty dict) and the
check requires some changed path ending in `.spec`. -/
def contains_specfile_change (e : DistgitEnv) : Bool :=
  match e.pull_request with
  | none => true
  | some _ =>
    let diff := e.pr_files_diff.getD []
    if !(diff.any (fun change => strEndsWith change ".spec")) then false
    else true

/-- The rejection message of the comment-retrigger branch. -/
def kojiCommentMsg (e : DistgitEnv) : String :=
  "koji-build retriggering through comment on PR identifier " ++
    pyOptIntStr e.pr_id ++ " and project " ++ e.project_url ++
    " done by " ++ e.actor ++ " which is not a packager."

/-- `PermissionOnDistgit.pre_check`: the push-event policy (branch
allowlist, then the merge-service path requiring a resolvable PR, a
specfile change and an allowed PR author, or the direct-push path
requiring an allowed committer — all of these only log on rejection) and
the comment-retrigger policy (packager capability, with an issue report on
rejection).  Returns the decision and the issue reports produced. -/
def pre_check (e : DistgitEnv) : Bool × List IssueReport :=
  if e.event_type == "PushPagureEvent" then
    if e.git_ref ∉ e.configured_branches then (false, [])
    else if e.committer == "pagure" then
      match e.pull_request with
      | none => (false, [])
      | some p =>
        if !(contains_specfile_change e) then (false, [])
        else if get_pr_author p ∉ e.allowed_pr_authors then (false, [])
        else (true, [])
    else if e.committer ∉ e.allowed_committers then (false, [])
    else (true, [])
  else if e.event_type == "PullRequestCommentPagureEvent" then
    if !(e.is_packager e.actor) then
      (false,
       [⟨e.issue_repository,
         "Re-triggering downstream koji build through comment in dist-git PR failed",
         kojiCommentMsg e ++ MSG_GET_IN_TOUCH,
         kojiCommentMsg e⟩])
    else (true, [])
  else (true, [])

end PermissionOnDistgit

namespace ValidInformationForPullFromUpstream

/-- The state a `ValidInformationForPullFromUpstream` checker closes over.
The optional strings mirror `event_dict.get(...)` / attribute access on
the event and the package config; `is_packager` is the forge capability
query used for comment-triggered retriggering. -/
structure UpstreamEnv where
  event_type : String
  version : Option String
  tag_name : Option String
  repo_name : Option String
  repo_namespace : Option String
  upstream_project_url : Option String
  actor : String
  pr_id : Option Int
  project_url : String
  is_packager : String → Bool
  issue_repository : String

/-- The message for a missing `upstream_project_url`. -/
def msg_upstream_url_not_set : String :=
  "\x60upstream_project_url\x60 is not set in the dist-git package configuration."

/-- The message for an unparsable repo name/namespace. -/
def msg_repo_parse (url : Option String) : String :=
  "We were not able to parse repo name or repo namespace from the " ++
    "upstream_project_url \x27" ++ pyOptStr url ++ "\x27 defined in the config."

/-- The message for a missing upstream tag name. -/
def msg_no_tag : String := "We were not able to get the upstream tag name."

/-- The message for a comment-retrigger by a non-packager. -/
def msg_not_packager (pr_id : Option Int) (project_url actor : String) : String :=
  "pull-from-upstream retriggering through comment on PR identifier " ++
    pyOptIntStr pr_id ++ " and project " ++ project_url ++ " done by " ++
    actor ++ " who is not a packager."

/-- `ValidInformationForPullFromUpstream.pre_check`: all validation
conditions are evaluated in order and each failing one overwrites
`msg_to_report` (and clears `valid`), so the message finally reported is
that of the last failing condition.  In the non-packager branch the second
line of the intended two-line title is a bare string expression statement
in the source and is discarded, so the title assigned there is just
`"Re-triggering pull-from-upstream "`.  At the end, a set message is
reported in the issue repository (every possible message starts with
non-empty literal text, so Python's string-truthiness test on it is
equivalent to its presence).  Returns the decision and the issue reports
produced. -/
def pre_check (e : UpstreamEnv) : Bool × List IssueReport :=
  let s1 : Bool × Option String :=
    if !(optTruthy e.upstream_project_url) then
      (false, some msg_upstream_url_not_set)
    else (true, none)
  let s2 : Bool × Option String :=
    if !(optTruthy e.repo_name && optTruthy e.repo_namespace) then
      (false, some (msg_repo_parse e.upstream_project_url))
    else s1
  let s3 : Bool × Option String :=
    if e.event_type == "NewHotnessUpdateEvent" && !(optTruthy e.tag_name) then
      (false, some msg_no_tag)
    else s2
  let s4 : Bool × Option String × String :=
    if e.event_type == "PullRequestCommentPagureEvent" &&
        !(e.is_packager e.actor) then
      (false, some (msg_not_packager e.pr_id e.project_url e.actor),
       "Re-triggering pull-from-upstream ")
    else
      (s3.1, s3.2,
       "Pull from upstream could not be run for update " ++ pyOptStr e.version)
  match s4.2.1 with
  | some msg_to_report =>
    (s4.1, [⟨e.issue_repository, s4.2.2, msg_to_report, msg_to_report⟩])
  | none => (s4.1, [])

end ValidInformationForPullFromUpstream

namespace IsUpstreamTagMatchingConfig

/-- The state an `IsUpstreamTagMatchingConfig` checker closes over.  The
include/exclude patterns are the parsed forms of the configured pattern
strings; `none` models an unset (or empty, hence falsy) configuration
value, matching the walrus-and-truthiness guards of the source. -/
structure TagEnv where
  tag_name : Option String
  upstream_tag_include : Option Regex
  upstream_tag_exclude : Option Regex

/-- `IsUpstreamTagMatchingConfig.pre_check`: a missing (or empty) tag is
accepted unconditionally; otherwise a configured include pattern must
match the tag at position 0 (`re.match`) and a configured exclude pattern
must not. -/
def pre_check (e : TagEnv) : Bool :=
  match e.tag_name with
  | none => true
  | some tag =>
    if tag == "" then true
    else if (match e.upstream_tag_include with
             | some p => !(matchFromStart p tag.data)
             | none => false) then false
    else if (match e.upstream_tag_exclude with
             | some p => matchFromStart p tag.data
             | none => false) then false
    else true

end IsUpstreamTagMatchingConfig

section Claims

open TestingFarmJobHelper PermissionOnDistgit ValidInformationForPullFromUpstream
  IsUpstreamTagMatchingConfig

/-- A concrete submitter environment: one configured test target that is
not among the build targets, and one Copr build on record, so the fan-out
runs and the single target fails its submission. -/
def eC1 : TFEnv :=
  { tests_targets := ["fedora-33-x86_64"]
    build_targets := []
    job_owner := "packit"
    job_project := "packit-hello-world"
    commit_sha := "abcdefg"
    project_url := "https://src.fedoraproject.org/rpms/hello"
    api_url := "https://prod.packit.dev/api"
    testing_farm_secret := "secret-token"
    testing_farm_api_url := "https://api.dev.testing-farm.io/v0.1/"
    db_trigger := 7
    copr_builds := [⟨"123"⟩]
    http := fun _ => none }

/-- C1: at `eC1` at least one target's submission fails (the target has
no build, so a failure status is reported for it and its per-target
details exist), yet the aggregate returned by `run_testing_farm_on_all`
carries `details = none` — the `None` returned by `dict.update` — so the
per-target failure details are NOT retained in the aggregate. -/
theorem c1_aggregate_details_lost :
    (run_testing_farm_on_all eC1).2 = .ok ⟨false, none⟩ ∧
    (run_testing_farm_on_all eC1).1.reports =
      [missingBuildReport "fedora-33-x86_64"] :=
  ⟨rfl, rfl⟩

/-- A concrete policy-gate environment: a push event on an allowlisted
branch by a direct committer who is not in the (empty) allowed-committers
set. -/
def eC5 : DistgitEnv :=
  { event_type := "PushPagureEvent"
    git_ref := "f36"
    committer := "alice"
    actor := "alice"
    pr_id := none
    project_url := "https://src.fedoraproject.org/rpms/hello"
    configured_branches := ["f36", "main"]
    allowed_pr_authors := ["packit"]
    allowed_committers := []
    pull_request := none
    pr_files_diff := none
    is_packager := fun _ => false
    issue_repository := "https://github.com/packit/notifications" }

/-- C5 counterexample: the push event of `eC5` is rejected because the
committer is not in the allowed-committers set, and NO user-facing issue
report is produced (the report list is empty — the source only logs). -/
theorem c5_counterexample : pre_check eC5 = (false, []) := rfl

/-- C5 amended: a push event never produces a user-facing issue report —
in particular the committer-mismatch and PR-author-mismatch rejections are
logged only. -/
theorem c5_push_rejections_not_reported (e : DistgitEnv)
    (h : e.event_type = "PushPagureEvent") :
    (pre_check e).2 = [] := by
  have hb : (e.event_type == "PushPagureEvent") = true := by simp [h]
  simp only [PermissionOnDistgit.pre_check, hb, if_true]
  split
  · rfl
  · split
    · split
      · rfl
      · split
        · rfl
        · split
          · rfl
          · rfl
    · split
      · rfl
      · rfl

/-- C5 witness: the amended claim applied to the concrete rejected push
event `eC5`. -/
theorem c5_witness : (pre_check eC5).2 = [] :=
  c5_push_rejections_not_reported eC5 rfl

/-- C10: when the PR is resolvable but the bounded-retry diff retrieval
yields no diff (`None`), `contains_specfile_change` treats the diff as
empty and returns `false` (it is a total function: no error is raised). -/
theorem c10_null_diff_is_empty (e : DistgitEnv) (p : PullRequest)
    (hpr : e.pull_request = some p) (hd : e.pr_files_diff = none) :
    contains_specfile_change e = false := by
  simp [PermissionOnDistgit.contains_specfile_change, hpr, hd]

/-- A concrete policy-gate environment with a resolvable PR whose diff
retrieval yielded no diff. -/
def eC10 : DistgitEnv :=
  { event_type := "PushPagureEvent"
    git_ref := "main"
    committer := "pagure"
    actor := "pagure"
    pr_id := some 11
    project_url := "https://src.fedoraproject.org/rpms/hello"
    configured_branches := ["main"]
    allowed_pr_authors := ["packit"]
    allowed_committers := []
    pull_request := some ⟨11, "merged", "packit"⟩
    pr_files_diff := none
    is_packager := fun _ => false
    issue_repository := "https://github.com/packit/notifications" }

/-- C10 witness: the theorem applied to the concrete environment `eC10`. -/
theorem c10_witness : contains_specfile_change eC10 = false :=
  c10_null_diff_is_empty eC10 ⟨11, "merged", "packit"⟩ rfl rfl

/-- C7: the tag filter accepts every event without a tag; a tag matching a
configured exclude pattern at position 0 is rejected regardless of the
include pattern; and with an include pattern configured, acceptance of a
tagged event requires the tag to match it at position 0 (`matchFromStart`
is a partial match anchored at the string's start, not a full-string
match). -/
theorem c7_tag_filter :
    (∀ e : TagEnv, e.tag_name = none →
       IsUpstreamTagMatchingConfig.pre_check e = true) ∧
    (∀ (e : TagEnv) (t : String) (pexc : Regex),
       e.tag_name = some t → t ≠ "" →
       e.upstream_tag_exclude = some pexc →
       matchFromStart pexc t.data = true →
       IsUpstreamTagMatchingConfig.pre_check e = false) ∧
    (∀ (e : TagEnv) (t : String) (pinc : Regex),
       e.tag_name = some t → t ≠ "" →
       e.upstream_tag_include = some pinc →
       IsUpstreamTagMatchingConfig.pre_check e = true →
       matchFromStart pinc t.data = true) := by
  refine ⟨?_, ?_, ?_⟩
  · intro e h
    simp [IsUpstreamTagMatchingConfig.pre_check, h]
  · intro e t pexc ht hne hx hm
    have hts : (t == "") = false := by simpa using hne
    cases hI : e.upstream_tag_include with
    | none => simp [IsUpstreamTagMatchingConfig.pre_check, ht, hts, hI, hx, hm]
    | some pinc =>
      by_cases hmi : matchFromStart pinc t.data = true
      · simp [IsUpstreamTagMatchingConfig.pre_check, ht, hts, hI, hx, hm, hmi]
      · simp [IsUpstreamTagMatchingConfig.pre_check, ht, hts, hI, hx, hm,
          Bool.eq_false_iff.mpr hmi]
  · intro e t pinc ht hne hI hacc
    have hts : (t == "") = false := by simpa using hne
    by_cases hmi : matchFromStart pinc t.data = true
    · exact hmi
    · exfalso
      rw [IsUpstreamTagMatchingConfig.pre_check, ht] at hacc
      simp [hts, hI, Bool.eq_false_iff.mpr hmi] at hacc

/-- C7 witness: the three parts of the tag-filter theorem at concrete
inputs — no tag is accepted; the tag `v1` matching the exclude pattern
`v` at position 0 is rejected; and acceptance of `v1` under the include
pattern `v` yields the (partial, anchored) match. -/
theorem c7_witness :
    IsUpstreamTagMatchingConfig.pre_check ⟨none, none, none⟩ = true ∧
    IsUpstreamTagMatchingConfig.pre_check
      ⟨some "v1", none, some (Regex.chr 'v')⟩ = false ∧
    matchFromStart (Regex.chr 'v') "v1".data = true := by
  refine ⟨c7_tag_filter.1 ⟨none, none, none⟩ rfl, ?_, ?_⟩
  · exact c7_tag_filter.2.1 _ "v1" (Regex.chr 'v') rfl (by decide)
      rfl (by decide)
  · exact c7_tag_filter.2.2
      ⟨some "v1", some (Regex.chr 'v'), none⟩ "v1"
      (Regex.chr 'v') rfl (by decide) rfl (by decide)

/-- The message of the LAST failing validation condition of
`ValidInformationForPullFromUpstream.pre_check`, in evaluation order —
the reference definition for the amended C2 claim (each failing condition
overwrites `msg_to_report`, so the last one wins). -/
def lastFailingMessage (e : UpstreamEnv) : Option String :=
  if e.event_type == "PullRequestCommentPagureEvent" &&
      !(e.is_packager e.actor) then
    some (msg_not_packager e.pr_id e.project_url e.actor)
  else if e.event_type == "NewHotnessUpdateEvent" && !(optTruthy e.tag_name) then
    some msg_no_tag
  else if !(optTruthy e.repo_name && optTruthy e.repo_namespace) then
    some (msg_repo_parse e.upstream_project_url)
  else if !(optTruthy e.upstream_project_url) then
    some msg_upstream_url_not_set
  else none

/-- A concrete upstream-pull validation environment in which the first
two conditions both fail: no `upstream_project_url` configured, hence also
no parseable repo name/namespace. -/
def eC2 : UpstreamEnv :=
  { event_type := "NewHotnessUpdateEvent"
    version := some "2.0"
    tag_name := some "2.0"
    repo_name := none
    repo_namespace := none
    upstream_project_url := none
    actor := "hotness"
    pr_id := none
    project_url := "https://src.fedoraproject.org/rpms/hello"
    is_packager := fun _ => true
    issue_repository := "https://github.com/packit/notifications" }

/-- C2 counterexample: at `eC2` the first failing condition (in evaluation
order) is the missing `upstream_project_url`, whose message is
`msg_upstream_url_not_set`; but the message actually reported is that of
the SECOND failing condition (`msg_repo_parse none`), which differs — so
the report does not carry the first failing condition's message. -/
theorem c2_counterexample :
    ValidInformationForPullFromUpstream.pre_check eC2 =
      (false,
       [⟨eC2.issue_repository,
         "Pull from upstream could not be run for update 2.0",
         msg_repo_parse none, msg_repo_parse none⟩]) ∧
    msg_repo_parse none ≠ msg_upstream_url_not_set :=
  ⟨rfl, by decide⟩

/-- C2 amended: when the upstream-pull validation fails, the message of
the user-facing issue report is the message of the LAST failing condition
in evaluation order (later failing conditions overwrite the messages of
earlier ones). -/
theorem c2_last_failure_message_reported (e : UpstreamEnv)
    (h : (ValidInformationForPullFromUpstream.pre_check e).1 = false) :
    (ValidInformationForPullFromUpstream.pre_check e).2.map
        IssueReport.message =
      (lastFailingMessage e).toList := by
  by_cases h4 : (e.event_type == "PullRequestCommentPagureEvent" &&
      !(e.is_packager e.actor)) = true
  · simp [ValidInformationForPullFromUpstream.pre_check, lastFailingMessage, h4]
  · by_cases h3 : (e.event_type == "NewHotnessUpdateEvent" &&
        !(optTruthy e.tag_name)) = true
    · simp [ValidInformationForPullFromUpstream.pre_check, lastFailingMessage,
        h4, h3]
    · by_cases h2 : (!(optTruthy e.repo_name && optTruthy e.repo_namespace)) = true
      · simp [ValidInformationForPullFromUpstream.pre_check, lastFailingMessage,
          h4, h3, h2]
      · by_cases h1 : (!(optTruthy e.upstream_project_url)) = true
        · simp [ValidInformationForPullFromUpstream.pre_check, lastFailingMessage,
            h4, h3, h2, h1]
        · exfalso
          rw [ValidInformationForPullFromUpstream.pre_check] at h
          simp [h4, h3, h2, h1] at h

/-- C2 witness: the amended claim applied to the concrete environment
`eC2` with two failing conditions. -/
theorem c2_witness :
    (ValidInformationForPullFromUpstream.pre_check eC2).2.map
        IssueReport.message =
      (lastFailingMessage eC2).toList :=
  c2_last_failure_message_reported eC2 rfl

/-- C9: when every other validation condition passes and a
comment-triggered retrigger is rejected because the commenter is not a
packager, the reported issue's title is exactly the truncated string
`"Re-triggering pull-from-upstream "` (the intended second line of the
title is a discarded bare string expression in the source), and that
title does not contain `"through a comment in dist-git PR failed"`. -/
theorem c9_truncated_title (e : UpstreamEnv)
    (_h1 : optTruthy e.upstream_project_url = true)
    (_h2 : optTruthy e.repo_name = true)
    (_h3 : optTruthy e.repo_namespace = true)
    (ht : e.event_type = "PullRequestCommentPagureEvent")
    (hp : e.is_packager e.actor = false) :
    (ValidInformationForPullFromUpstream.pre_check e).2 =
      [⟨e.issue_repository, "Re-triggering pull-from-upstream ",
        msg_not_packager e.pr_id e.project_url e.actor,
        msg_not_packager e.pr_id e.project_url e.actor⟩] ∧
    ¬ ("through a comment in dist-git PR failed".data <:+:
        "Re-triggering pull-from-upstream ".data) := by
  constructor
  · simp [ValidInformationForPullFromUpstream.pre_check, ht, hp]
  · intro hin
    have := hin.length_le
    simp at this

/-- A concrete upstream-pull validation environment in which only the
packager condition fails for a comment-triggered retrigger. -/
def eC9 : UpstreamEnv :=
  { event_type := "PullRequestCommentPagureEvent"
    version := some "1.2.3"
    tag_name := some "1.2.3"
    repo_name := some "hello"
    repo_namespace := some "rpms"
    upstream_project_url := some "https://github.com/hello/hello"
    actor := "alice"
    pr_id := some 5
    project_url := "https://src.fedoraproject.org/rpms/hello"
    is_packager := fun _ => false
    issue_repository := "https://github.com/packit/notifications" }

/-- C9 witness: the theorem applied to the concrete environment `eC9`. -/
theorem c9_witness :
    (ValidInformationForPullFromUpstream.pre_check eC9).2 =
      [⟨eC9.issue_repository, "Re-triggering pull-from-upstream ",
        msg_not_packager eC9.pr_id eC9.project_url eC9.actor,
        msg_not_packager eC9.pr_id eC9.project_url eC9.actor⟩] ∧
    ¬ ("through a comment in dist-git PR failed".data <:+:
        "Re-triggering pull-from-upstream ".data) :=
  c9_truncated_title eC9 rfl rfl rfl rfl rfl

/-- C6: for a push event on an allowlisted branch whose committer is the
merge-service account (`pagure`), the policy gate accepts if and only if
the originating pull request is resolvable, its changed-file diff contains
a path ending in `.spec`, and the PR's author is in the allowed-authors
set. -/
theorem c6_merge_service_push (e : DistgitEnv)
    (ht : e.event_type = "PushPagureEvent")
    (hb : e.git_ref ∈ e.configured_branches)
    (hc : e.committer = "pagure") :
    (PermissionOnDistgit.pre_check e).1 = true ↔
      ∃ p, e.pull_request = some p ∧
        (e.pr_files_diff.getD []).any
          (fun change => strEndsWith change ".spec") = true ∧
        get_pr_author p ∈ e.allowed_pr_authors := by
  cases hpr : e.pull_request with
  | none =>
    simp [PermissionOnDistgit.pre_check, ht, hb, hc, hpr]
  | some p =>
    by_cases hA : (e.pr_files_diff.getD []).any
        (fun change => strEndsWith change ".spec") = true
    · by_cases hM : get_pr_author p ∈ e.allowed_pr_authors
      · simp [PermissionOnDistgit.pre_check,
          PermissionOnDistgit.contains_specfile_change, ht, hb, hc, hpr, hA, hM]
      · simp [PermissionOnDistgit.pre_check,
          PermissionOnDistgit.contains_specfile_change, ht, hb, hc, hpr, hA, hM]
    · simp [PermissionOnDistgit.pre_check,
        PermissionOnDistgit.contains_specfile_change, ht, hb, hc, hpr,
        Bool.eq_false_iff.mpr hA]

/-- A concrete policy-gate environment: a merge-service push on an
allowlisted branch with a resolvable PR, a specfile change in its diff,
and an allowed PR author. -/
def eC6 : DistgitEnv :=
  { event_type := "PushPagureEvent"
    git_ref := "f36"
    committer := "pagure"
    actor := "pagure"
    pr_id := some 2
    project_url := "https://src.fedoraproject.org/rpms/hello"
    configured_branches := ["f36", "main"]
    allowed_pr_authors := ["packit"]
    allowed_committers := []
    pull_request := some ⟨2, "merged", "packit"⟩
    pr_files_diff := some ["hello.spec", "sources"]
    is_packager := fun _ => false
    issue_repository := "https://github.com/packit/notifications" }

/-- C6 witness: the equivalence applied at `eC6`, concluding acceptance
from the resolvable PR, the `.spec` path in the diff and the allowed
author. -/
theorem c6_witness : (PermissionOnDistgit.pre_check eC6).1 = true :=
  (c6_merge_service_push eC6 rfl (by decide) rfl).mpr
    ⟨⟨2, "merged", "packit"⟩, rfl, by decide, by decide⟩

/-- C3: a single-target submission whose POST receives a response with a
non-success status and a JSON body containing a `message` field issues
exactly the two HTTP requests (the catalog GET and one POST — the request
is not retried), reports a failure status whose description is exactly
that message string, and returns a failure result carrying the same
message. -/
theorem c3_business_failure_message (e : TFEnv) (build_id : Int)
    (chroot m compose arch : String) (r : RequestResponse)
    (h1 : chroot ∈ e.tests_targets) (h2 : chroot ∈ e.build_targets)
    (hca : get_compose_arch e chroot = ([composesCall e], .ok (compose, arch)))
    (hpost : e.http ⟨"POST", tftApiUrl e ++ "requests",
        some (payloadDict e build_id chroot compose arch)⟩ = some r)
    (hstat : (r.status_code == 200) = false)
    (htr : pyTruthy r.json = true)
    (hcont : pyContainsE r.json "message" = .ok true)
    (hmsg : jGet r.json "message" = some (.str m)) :
    run_testing_farm e build_id chroot =
      (⟨[composesCall e,
         ⟨"POST", tftApiUrl e ++ "requests",
          some (payloadDict e build_id chroot compose arch)⟩],
        [submittingReport chroot, ⟨.failure, .str m, none, chroot⟩], [], []⟩,
       .ok ⟨false, some [("msg", .str m)]⟩) := by
  simp [run_testing_farm, _payload, h1, h2, hca, hpost, hstat, htr, hcont, hmsg]

/-- The compose catalog body used by the concrete environments. -/
def composesJson : JVal :=
  .obj [("composes", .arr [.obj [("name", .str "Fedora-33")]])]

/-- A concrete submitter environment whose transport answers the catalog
GET with a valid body and the submission POST with a 400 response whose
body is `{"message": "bad env"}`. -/
def eC3 : TFEnv :=
  { tests_targets := ["fedora-33-x86_64"]
    build_targets := ["fedora-33-x86_64"]
    job_owner := "packit"
    job_project := "packit-hello-world"
    commit_sha := "abcdefg"
    project_url := "https://src.fedoraproject.org/rpms/hello"
    api_url := "https://prod.packit.dev/api"
    testing_farm_secret := "secret-token"
    testing_farm_api_url := "https://api.dev.testing-farm.io/v0.1/"
    db_trigger := 7
    copr_builds := [⟨"123"⟩]
    http := fun call =>
      if call.method == "GET" then some ⟨200, true, composesJson, "OK"⟩
      else some ⟨400, false, .obj [("message", .str "bad env")], "Bad Request"⟩ }

/-- C3 witness: the theorem applied at `eC3`, where the reported failure
description and the returned details carry exactly `"bad env"`. -/
theorem c3_witness :
    (run_testing_farm eC3 123 "fedora-33-x86_64").2 =
      .ok ⟨false, some [("msg", .str "bad env")]⟩ := by
  rw [c3_business_failure_message eC3 123 "fedora-33-x86_64" "bad env"
    "Fedora-33" "x86_64"
    ⟨400, false, .obj [("message", .str "bad env")], "Bad Request"⟩
    (by decide) (by decide) rfl rfl rfl rfl rfl rfl]

/-- C4: a single-target submission whose POST receives a success (200)
response with an `id` in the body creates exactly one TestRun row — with
that pipeline id, status `new`, the event's commit SHA, the submitted
target, no web URL, and the helper's trigger link — reports a pending
status whose URL contains the pipeline id, and returns success. -/
theorem c4_success_creates_testrun (e : TFEnv) (build_id : Int)
    (chroot compose arch : String) (r : RequestResponse) (pid : JVal)
    (h1 : chroot ∈ e.tests_targets) (h2 : chroot ∈ e.build_targets)
    (hca : get_compose_arch e chroot = ([composesCall e], .ok (compose, arch)))
    (hpost : e.http ⟨"POST", tftApiUrl e ++ "requests",
        some (payloadDict e build_id chroot compose arch)⟩ = some r)
    (hstat : (r.status_code == 200) = true)
    (hid : jGet r.json "id" = some pid) :
    run_testing_farm e build_id chroot =
      (⟨[composesCall e,
         ⟨"POST", tftApiUrl e ++ "requests",
          some (payloadDict e build_id chroot compose arch)⟩],
        [submittingReport chroot,
         ⟨.pending, .str "Tests have been submitted ...",
          some (tftApiUrl e ++ "requests/" ++ pyStr pid), chroot⟩],
        [⟨pid, e.commit_sha, .new, chroot, none, e.db_trigger⟩], []⟩,
       .ok ⟨true, some []⟩) ∧
    (pyStr pid).data <:+: (tftApiUrl e ++ "requests/" ++ pyStr pid).data := by
  constructor
  · simp [run_testing_farm, _payload, h1, h2, hca, hpost, hstat, hid]
  · refine ⟨(tftApiUrl e ++ "requests/").data, [], ?_⟩
    simp [String.data_append]

/-- A concrete submitter environment whose transport answers the catalog
GET with a valid body and the submission POST with a 200 response whose
body is `{"id": "abc-123"}`. -/
def eC4 : TFEnv :=
  { tests_targets := ["fedora-33-x86_64"]
    build_targets := ["fedora-33-x86_64"]
    job_owner := "packit"
    job_project := "packit-hello-world"
    commit_sha := "abcdefg"
    project_url := "https://src.fedoraproject.org/rpms/hello"
    api_url := "https://prod.packit.dev/api"
    testing_farm_secret := "secret-token"
    testing_farm_api_url := "https://api.dev.testing-farm.io/v0.1/"
    db_trigger := 7
    copr_builds := [⟨"123"⟩]
    http := fun call =>
      if call.method == "GET" then some ⟨200, true, composesJson, "OK"⟩
      else some ⟨200, true, .obj [("id", .str "abc-123")], "OK"⟩ }

/-- C4 witness: the theorem applied at `eC4`: exactly one TestRun row with
pipeline id `abc-123` and status `new` is created, and the pending URL
contains `abc-123`. -/
theorem c4_witness :
    (run_testing_farm eC4 123 "fedora-33-x86_64").1.creates =
      [⟨.str "abc-123", eC4.commit_sha, .new, "fedora-33-x86_64", none,
        eC4.db_trigger⟩] ∧
    ("abc-123" : String).data <:+:
      (tftApiUrl eC4 ++ "requests/" ++ pyStr (.str "abc-123")).data := by
  have h := c4_success_creates_testrun eC4 123 "fedora-33-x86_64"
    "Fedora-33" "x86_64" ⟨200, true, .obj [("id", .str "abc-123")], "OK"⟩
    (.str "abc-123") (by decide) (by decide) rfl rfl rfl rfl
  exact ⟨by rw [h.1], h.2⟩

/-- C8: submitting a target that is not among the declared test targets
returns a failure result and issues zero HTTP calls (only a sentry event
and no status report); and every TestRun row the submitter ever creates
has a target that is a member of the declared test targets. -/
theorem c8_undeclared_target_guard :
    (∀ (e : TFEnv) (build_id : Int) (chroot : String),
       chroot ∉ e.tests_targets →
         run_testing_farm e build_id chroot =
           (⟨[], [], [],
             ["Target \x27" ++ chroot ++ "\x27 not defined for tests but triggered."]⟩,
            .ok ⟨false,
                 some [("msg", .str ("Target \x27" ++ chroot ++
                   "\x27 not defined for tests but triggered."))]⟩)) ∧
    (∀ (e : TFEnv) (build_id : Int) (chroot : String) (row : TFTTestRunCreate),
       row ∈ (run_testing_farm e build_id chroot).1.creates →
         row.target ∈ e.tests_targets) := by
  constructor
  · intro e build_id chroot h
    simp [run_testing_farm, h]
  · intro e build_id chroot row hrow
    by_cases hT : chroot ∈ e.tests_targets
    · by_cases hB : chroot ∈ e.build_targets
      · simp only [run_testing_farm, hT, hB, if_true] at hrow
        repeat' split at hrow
        all_goals simp_all
      · simp [run_testing_farm, hT, hB] at hrow
    · simp [run_testing_farm, hT] at hrow

/-- A concrete submitter environment with a single declared test target,
used to exercise the undeclared-target guard on the target `x`. -/
def eC8 : TFEnv :=
  { tests_targets := ["fedora-33-x86_64"]
    build_targets := ["fedora-33-x86_64"]
    job_owner := "packit"
    job_project := "packit-hello-world"
    commit_sha := "abcdefg"
    project_url := "https://src.fedoraproject.org/rpms/hello"
    api_url := "https://prod.packit.dev/api"
    testing_farm_secret := "secret-token"
    testing_farm_api_url := "https://api.dev.testing-farm.io/v0.1/"
    db_trigger := 7
    copr_builds := [⟨"123"⟩]
    http := fun _ => none }

/-- C8 witness: the guard applied at `eC8` for the undeclared target `x`
(failure, zero HTTP calls), and the invariant applied to the TestRun row
created by the successful submission at `eC4`. -/
theorem c8_witness :
    (run_testing_farm eC8 123 "x").2 =
      .ok ⟨false,
           some [("msg", .str "Target \x27x\x27 not defined for tests but triggered.")]⟩ ∧
    (run_testing_farm eC8 123 "x").1.calls = [] ∧
    (⟨.str "abc-123", eC4.commit_sha, .new, "fedora-33-x86_64", none,
      eC4.db_trigger⟩ : TFTTestRunCreate).target ∈ eC4.tests_targets := by
  have h := c8_undeclared_target_guard.1 eC8 123 "x" (by decide)
  refine ⟨by rw [h]; rfl, by rw [h], ?_⟩
  exact c8_undeclared_target_guard.2 eC4 123 "fedora-33-x86_64" _
    (List.Mem.head _)

end Claims
